import Mathlib

/-
Verification development for the rules engine and turn state machine of the
graph-board strategy game server in `app.py`.

The Python code works on string node ids ("R1N0", "C2", ...), string piece
names ("red_matron mother", "blue_orc", ...) and a dict-shaped game state.
The embedding below mirrors that directly: nodes and pieces are `String`,
the board is an association list with Python-dict update semantics
(overwrite in place, append new keys), and every engine operation is a pure
function from a `GameState` to `Except String GameState` (Python's
`(False, reason)` / `(True, state)` return convention).

Randomness (the two d8 faces in `roll_spider_dice`) is passed in as
arguments; wall-clock turn-timer bookkeeping and WebSocket notification are
out of scope (spec section 5/6) and are not part of the state.

The static data file `static/game-config.json` (strand definitions,
resurrection zones, the spider-dice minimum-turn constant) is loaded at
process start and is not part of the source tree; it is modelled from the
spec as an explicit `Config` parameter.
-/

set_option maxRecDepth 4000

/-! ## String primitives

The Python code manipulates node ids and piece names with `startswith`,
substring tests (`'orc' in piece_name`), `split('N')`, `split('_')` and
`split('->')`.  These are re-implemented here over `String.data` so that
everything reduces in the kernel. -/

/-- Boolean equality of strings (Python `==` on `str`). -/
def strEq (a b : String) : Bool := decide (a = b)

/-- First list is a prefix of the second (over characters). -/
def charListStarts : List Char → List Char → Bool
  | [], _ => true
  | _ :: _, [] => false
  | a :: as, b :: bs => if a = b then charListStarts as bs else false

/-- Python `s.startswith(p)`. -/
def strStartsWith (s p : String) : Bool := charListStarts p.data s.data

/-- Contiguous-sublist test over characters. -/
def listContainsSub (sub : List Char) : List Char → Bool
  | [] => sub.isEmpty
  | c :: rest => charListStarts sub (c :: rest) || listContainsSub sub rest

/-- Python `sub in s` for strings. -/
def strContains (s sub : String) : Bool := listContainsSub sub.data s.data

/-- Python `x in xs` for a list of strings (also models membership in the
`set` objects the move generators build, where only membership matters). -/
def listElem (x : String) (xs : List String) : Bool := xs.any (fun y => strEq x y)

/-- Python `list.remove(x)`: drop the first occurrence of `x`. -/
def listEraseFirst (xs : List String) (x : String) : List String :=
  match xs with
  | [] => []
  | y :: ys => if strEq y x then ys else y :: listEraseFirst ys x

/-- Helper for `splitOnChar`. -/
def splitOnCharAux (c : Char) : List Char → List Char → List String
  | [], acc => [String.mk acc.reverse]
  | x :: xs, acc =>
    if x = c then String.mk acc.reverse :: splitOnCharAux c xs []
    else splitOnCharAux c xs (x :: acc)

/-- Python `s.split(c)` for a single-character separator. -/
def splitOnChar (c : Char) (s : String) : List String := splitOnCharAux c s.data []

/-- Helper for `splitArrow`. -/
def splitArrowAux : List Char → List Char → List String
  | [], acc => [String.mk acc.reverse]
  | '-' :: '>' :: xs, acc => String.mk acc.reverse :: splitArrowAux xs []
  | x :: xs, acc => splitArrowAux xs (x :: acc)

/-- Python `s.split('->')`, used for weaponmaster and wizard move paths. -/
def splitArrow (s : String) : List String := splitArrowAux s.data []

/-- Python `piece_name.split('_', 1)[1]`: everything after the first
underscore (empty when there is none; the Python would raise there). -/
def afterFirstUnderscore (s : String) : String := String.mk (dropThrough s.data)
  where dropThrough : List Char → List Char
    | [] => []
    | x :: xs => if x = '_' then xs else dropThrough xs

/-- Decimal digit value of a character, if any. -/
def charDigit (c : Char) : Option Nat :=
  if 48 ≤ c.toNat ∧ c.toNat ≤ 57 then some (c.toNat - 48) else none

/-- Helper for `parseNat`. -/
def parseNatAux : List Char → Nat → Option Nat
  | [], acc => some acc
  | c :: cs, acc =>
    match charDigit c with
    | some d => parseNatAux cs (acc * 10 + d)
    | none => none

/-- Python `int(s)` restricted to plain digit strings; `none` where the
Python call would raise `ValueError`. -/
def parseNat (s : String) : Option Nat :=
  match s.data with
  | [] => none
  | l => parseNatAux l 0

/-- Decimal digit character. -/
def digitChar (d : Nat) : Char := Char.ofNat (48 + d)

/-- Helper for `natToStr`; the fuel (first argument) only bounds the digit
count so the recursion is structural, `n + 1` always suffices. -/
def natToStrAux : Nat → Nat → List Char → List Char
  | 0, _, acc => acc
  | fuel + 1, n, acc =>
    if n < 10 then digitChar n :: acc
    else natToStrAux fuel (n / 10) (digitChar (n % 10) :: acc)

/-- Decimal rendering of a natural number (Python f-string interpolation). -/
def natToStr (n : Nat) : String := String.mk (natToStrAux (n + 1) n [])

/-- Index of the first occurrence of `x` (Python `list.index`); returns the
length when absent (callers guard with `listElem`, as the Python would
raise `ValueError`). -/
def idxOfAux (x : String) : List String → Nat → Nat
  | [], i => i
  | y :: ys, i => if strEq y x then i else idxOfAux x ys (i + 1)

/-- Index of the first occurrence of a string in a list. -/
def idxOf (x : String) (l : List String) : Nat := idxOfAux x l 0

/-! ## Board: a Python dict from node id to piece name -/

/-- The board maps occupied node ids to piece names (`game_state['board']`).
Represented as an association list with Python-dict semantics. -/
abbrev Board := List (String × String)

/-- Python `board.get(k)` / `k in board` lookup. -/
def boardFind (b : Board) (k : String) : Option String :=
  match b with
  | [] => none
  | (k', v) :: rest => if strEq k' k then some v else boardFind rest k

/-- Python `del board[k]` (no-op when the key is absent, where the Python
statement would raise `KeyError`). -/
def boardErase (b : Board) (k : String) : Board :=
  match b with
  | [] => []
  | (k', v) :: rest => if strEq k' k then rest else (k', v) :: boardErase rest k

/-- Python `board[k] = v`: overwrite in place, or append a new key. -/
def boardInsert (b : Board) (k v : String) : Board :=
  match b with
  | [] => [(k, v)]
  | (k', v') :: rest =>
    if strEq k' k then (k, v) :: rest else (k', v') :: boardInsert rest k v

/-! ## Static configuration

Modelled from the spec: the board configuration (section 6, "Board
configuration") — the strand node sequences, per-color resurrection-zone
node lists and the minimum turn count before a dice roll — is loaded from
`static/game-config.json`, which is not part of the source tree.  The code
below takes it as an explicit parameter wherever `app.py` reads the global
`GAME_CONFIG`. -/
structure Config where
  /-- `GAME_CONFIG['strand_definitions']`, each entry's `nodes` list. -/
  strands : List (List String)
  /-- `RESURRECTION_ZONES['red']`. -/
  reszonesRed : List String
  /-- `RESURRECTION_ZONES['blue']`. -/
  reszonesBlue : List String
  /-- `SPIDER_DICE_MIN_TURN`. -/
  spiderDiceMinTurn : Nat
  deriving Repr, DecidableEq

/-- `RESURRECTION_ZONES.get(player_color, [])`. -/
def Config.reszones (cfg : Config) (color : String) : List String :=
  if strEq color "red" then cfg.reszonesRed
  else if strEq color "blue" then cfg.reszonesBlue
  else []

/-- The code's ubiquitous `'blue' if color == 'red' else 'red'`. -/
def otherColor (c : String) : String := if strEq c "red" then "blue" else "red"

/-! ## Board topology (`get_neighboring_nodes`) -/

/-- Ring neighbors: for a node starting with `R`, the two adjacent indices
mod 16 on the same ring (ids are rebuilt with f-string formatting).
Malformed ids, on which the Python `int()` would raise, contribute
nothing. -/
def ringNbrs (node : String) : List String :=
  if strStartsWith node "R" then
    match splitOnChar 'N' node with
    | ring :: numStr :: _ =>
      match parseNat numStr with
      | some n =>
        [ring ++ "N" ++ natToStr ((n + 15) % 16), ring ++ "N" ++ natToStr ((n + 1) % 16)]
      | none => []
    | _ => []
  else []

/-- Center neighbors: the fixed diamond adjacency of `C0`..`C3`, keyed on
the character at index 1. -/
def centerNbrs (node : String) : List String :=
  if strStartsWith node "C" then
    match node.data with
    | _ :: c :: _ =>
      match charDigit c with
      | some 0 => ["C1", "C2"]
      | some 1 => ["C0", "C3"]
      | some 2 => ["C0", "C3"]
      | some 3 => ["C1", "C2"]
      | _ => []
    | _ => []
  else []

/-- Strand neighbors: immediate predecessor/successor in every configured
strand sequence containing the node. -/
def strandNbrs (cfg : Config) (node : String) : List String :=
  cfg.strands.foldr
    (fun strand acc =>
      if listElem node strand then
        let idx := idxOf node strand
        (if idx > 0 then [strand.getD (idx - 1) ""] else []) ++
        (if idx < strand.length - 1 then [strand.getD (idx + 1) ""] else []) ++ acc
      else acc)
    []

/-- `get_neighboring_nodes(node_id)`: union of ring, center and strand
adjacency (the Python builds a `set`; only membership matters). -/
def getNeighboringNodes (cfg : Config) (node : String) : List String :=
  ringNbrs node ++ centerNbrs node ++ strandNbrs cfg node

/-! ## Piece helpers -/

/-- `is_enemy_piece(piece_name, current_color)`. -/
def isEnemyPiece (piece color : String) : Bool :=
  if strEq piece "" then false
  else strStartsWith piece (if strEq color "red" then "blue_" else "red_")

/-- `has_enemy_neighbors(node_id, board_state, current_color)`. -/
def hasEnemyNeighbors (cfg : Config) (node : String) (board : Board) (color : String) : Bool :=
  (getNeighboringNodes cfg node).any fun nb =>
    match boardFind board nb with
    | some p => isEnemyPiece p color
    | none => false

/-! ## Per-piece legal-destination generators (spec section 4.2) -/

/-- `get_legal_moves_for_orc`: each neighbor, kept by the capture rule when
occupied and by the no-retreat rule when empty. -/
def getLegalMovesForOrc (cfg : Config) (node : String) (board : Board)
    (color : String) (spiderControl : Bool) : List String :=
  (getNeighboringNodes cfg node).filter fun nb =>
    match boardFind board nb with
    | some p => spiderControl || !(strStartsWith p (color ++ "_"))
    | none =>
      !(hasEnemyNeighbors cfg node board color) || hasEnemyNeighbors cfg nb board color

/-- The ring and strand paths through a node used by the priestess slide
(`paths` in `get_legal_moves_for_priestess`).  The ring path is rebuilt
from the id's ring part; every configured strand containing the node is
added as-is. -/
def priestessPaths (cfg : Config) (node : String) : List (List String) :=
  (if strStartsWith node "R" then
    match splitOnChar 'N' node with
    | ring :: _ => [(List.range 16).map (fun i => ring ++ "N" ++ natToStr i)]
    | _ => []
  else []) ++ cfg.strands.filter (fun s => listElem node s)

/-- One direction of the priestess slide: visit the path offsets in order,
collect empty nodes, stop at the first occupied node and keep it only for
an enemy piece (or under spider control).  The index lists already carry
the source's `(current_idx ± i) % path_length` arithmetic, which wraps on
strands exactly as it does on rings (the source computes an `is_ring` flag
but never uses it). -/
def slideDir (path : List String) (board : Board) (color : String)
    (spiderControl : Bool) : List Nat → List String
  | [] => []
  | i :: rest =>
    let target := path.getD i ""
    match boardFind board target with
    | some p => if spiderControl || isEnemyPiece p color then [target] else []
    | none => target :: slideDir path board color spiderControl rest

/-- Destinations contributed by one path in `get_legal_moves_for_priestess`:
both direction loops `for i in range(1, path_length)` with modular index
arithmetic.  A path not containing the node contributes nothing (there the
Python `path.index` would raise, but `priestessPaths` only produces paths
containing the node). -/
def priestessPathMoves (path : List String) (node : String) (board : Board)
    (color : String) (spiderControl : Bool) : List String :=
  if listElem node path then
    let n := path.length
    let idx := idxOf node path
    slideDir path board color spiderControl
      (((List.range' 1 (n - 1)).map (fun i => (idx + i) % n))) ++
    slideDir path board color spiderControl
      (((List.range' 1 (n - 1)).map (fun i => (idx + (n - i)) % n)))
  else []

/-- `get_legal_moves_for_priestess`. -/
def getLegalMovesForPriestess (cfg : Config) (node : String) (board : Board)
    (color : String) (spiderControl : Bool) : List String :=
  (priestessPaths cfg node).foldr
    (fun p acc => priestessPathMoves p node board color spiderControl ++ acc) []

/-- `get_legal_moves_for_weaponmaster`: ordered two-hop paths
`"first->second"`; a hop onto an own piece is blocked unless under spider
control, and the second hop may not return to the origin. -/
def getLegalMovesForWeaponmaster (cfg : Config) (node : String) (board : Board)
    (color : String) (spiderControl : Bool) : List String :=
  (getNeighboringNodes cfg node).foldr
    (fun first acc =>
      let blockedFirst :=
        match boardFind board first with
        | some p => !spiderControl && strStartsWith p (color ++ "_")
        | none => false
      if blockedFirst then acc
      else
        ((getNeighboringNodes cfg first).foldr
          (fun second acc2 =>
            if strEq second node then acc2
            else
              let blockedSecond :=
                match boardFind board second with
                | some p => !spiderControl && strStartsWith p (color ++ "_")
                | none => false
              if blockedSecond then acc2
              else (first ++ "->" ++ second) :: acc2)
          []) ++ acc)
    []

/-- `get_legal_moves_for_wizard`: ordered three-hop paths with pairwise
distinct nodes distinct from the origin; intermediate occupancy is ignored,
only the final node rejects own pieces (unless under spider control). -/
def getLegalMovesForWizard (cfg : Config) (node : String) (board : Board)
    (color : String) (spiderControl : Bool) : List String :=
  (getNeighboringNodes cfg node).foldr
    (fun a acc =>
      if strEq a node then acc
      else
        ((getNeighboringNodes cfg a).foldr
          (fun b acc2 =>
            if strEq b node || strEq b a then acc2
            else
              ((getNeighboringNodes cfg b).foldr
                (fun c acc3 =>
                  if strEq c node || strEq c a || strEq c b then acc3
                  else
                    let blocked :=
                      match boardFind board c with
                      | some p => !spiderControl && strStartsWith p (color ++ "_")
                      | none => false
                    if blocked then acc3
                    else (a ++ "->" ++ b ++ "->" ++ c) :: acc3)
                []) ++ acc2)
          []) ++ acc)
    []

/-- `would_move_put_matron_in_check(from, to, board, color)`: simulate the
matron mother moving to `to` and ask whether any enemy piece reaches it
(with the piece-type dispatch the Python duplicates there; note the raw,
unfiltered multi-hop path strings are compared against the node id). -/
def wouldMovePutMatronInCheck (cfg : Config) (fromNode toNode : String)
    (board : Board) (color : String) : Bool :=
  let temp := boardInsert (boardErase board fromNode) toNode (color ++ "_matron mother")
  let matronNode := toNode
  let enemy := otherColor color
  temp.any fun kv =>
    if strStartsWith kv.2 (enemy ++ "_") then
      let moves :=
        if strContains kv.2 "orc" then getLegalMovesForOrc cfg kv.1 temp enemy false
        else if strContains kv.2 "priestess" then
          getLegalMovesForPriestess cfg kv.1 temp enemy false
        else if strContains kv.2 "weaponmaster" then
          getLegalMovesForWeaponmaster cfg kv.1 temp enemy false
        else if strContains kv.2 "wizard" then
          getLegalMovesForWizard cfg kv.1 temp enemy false
        else getNeighboringNodes cfg kv.1
      listElem matronNode moves
    else false

/-- `get_legal_moves_for_matron_mother`: neighbors passing the capture rule
and the generation-time self-check filter. -/
def getLegalMovesForMatronMother (cfg : Config) (node : String) (board : Board)
    (color : String) (spiderControl : Bool) : List String :=
  (getNeighboringNodes cfg node).filter fun nb =>
    match boardFind board nb with
    | some p =>
      if spiderControl then !(wouldMovePutMatronInCheck cfg node nb board color)
      else if !(strStartsWith p (color ++ "_")) then
        !(wouldMovePutMatronInCheck cfg node nb board color)
      else false
    | none => !(wouldMovePutMatronInCheck cfg node nb board color)

/-- `get_legal_moves(piece_name, ...)`: substring dispatch on the combined
color-and-type piece name, with the default neighbors rule for unknown
types. -/
def getLegalMoves (cfg : Config) (pieceName node : String) (board : Board)
    (color : String) (spiderControl : Bool) : List String :=
  if strContains pieceName "orc" then
    getLegalMovesForOrc cfg node board color spiderControl
  else if strContains pieceName "priestess" then
    getLegalMovesForPriestess cfg node board color spiderControl
  else if strContains pieceName "matron mother" then
    getLegalMovesForMatronMother cfg node board color spiderControl
  else if strContains pieceName "weaponmaster" then
    getLegalMovesForWeaponmaster cfg node board color spiderControl
  else if strContains pieceName "wizard" then
    getLegalMovesForWizard cfg node board color spiderControl
  else
    (getNeighboringNodes cfg node).filter fun nb =>
      match boardFind board nb with
      | none => true
      | some p => isEnemyPiece p color || spiderControl

/-- `can_orc_promote(piece_name, destination_node, player_color)`. -/
def canOrcPromote (cfg : Config) (pieceName destination playerColor : String) : Bool :=
  strContains pieceName "orc" && listElem destination (cfg.reszones playerColor)

/-- `get_promotable_pieces(captured_pieces)`: the non-orc, non-matron-mother
entries. -/
def getPromotablePieces (captured : List String) : List String :=
  captured.filter fun p => !(strContains p "orc") && !(strContains p "matron mother")

/-! ## Game state (`Lobby.game_state`)

Wall-clock timer fields (`player_time_remaining`, `turn_start_time`) and
chat are outside the rules engine (spec sections 1 and 5) and are omitted;
no other field of the Python dict is dropped. -/

/-- The `last_move` records the engine writes, one constructor per
`move_type` value, carrying the fields the code later reads. -/
inductive LastMove where
  | singleMoveRec (fromNode toNode piece : String) (captured : List String) (player : String)
  | weaponTwoRec (fromNode toNode inter piece : String) (captured : List String) (player : String)
  | wizardThreeRec (fromNode toNode : String) (inters : List String) (piece : String)
      (captured : List String) (player : String)
  | diceRollRec (player : String) (die1 die2 : Nat)
  | sacrificedRec (player piece node : String)
  | controlledRec (player piece node : String)
  | controlledMoveRec (fromNode toNode piece : String) (captured : List String)
      (player originalColor : String)
  | promotionRec (player fromOrc toPiece node : String)
  deriving Repr, DecidableEq

/-- Python `last_move.get('captured', [])`. -/
def LastMove.getCaptured : LastMove → List String
  | .singleMoveRec _ _ _ c _ => c
  | .weaponTwoRec _ _ _ _ c _ => c
  | .wizardThreeRec _ _ _ _ c _ => c
  | .controlledMoveRec _ _ _ c _ _ => c
  | _ => []

/-- The mutable per-lobby game state. -/
structure GameState where
  board : Board
  current_turn : String
  game_started : Bool
  captured_red : List String
  captured_blue : List String
  turn_red : Nat
  turn_blue : Nat
  sacrifice_mode : Bool
  sacrifice_player : Option String
  spider_control_mode : Bool
  spider_control_player : Option String
  controlled_piece_node : Option String
  controlled_piece_name : Option String
  controlled_piece_original_color : Option String
  promotion_mode : Bool
  promotion_player : Option String
  promotion_node : Option String
  promotion_orc : Option String
  game_over : Bool
  winner : Option String
  game_end_reason : Option String
  last_move : Option LastMove
  deriving Repr, DecidableEq

/-- The freshly-constructed `Lobby.game_state` dict. -/
def initialGameState : GameState where
  board := []
  current_turn := "red"
  game_started := false
  captured_red := []
  captured_blue := []
  turn_red := 0
  turn_blue := 0
  sacrifice_mode := false
  sacrifice_player := none
  spider_control_mode := false
  spider_control_player := none
  controlled_piece_node := none
  controlled_piece_name := none
  controlled_piece_original_color := none
  promotion_mode := false
  promotion_player := none
  promotion_node := none
  promotion_orc := none
  game_over := false
  winner := none
  game_end_reason := none
  last_move := none

instance : Inhabited GameState := ⟨initialGameState⟩

/-- Python `game_state['captured_pieces'][color]`. -/
def GameState.captured (st : GameState) (color : String) : List String :=
  if strEq color "red" then st.captured_red else st.captured_blue

/-- Python `game_state['captured_pieces'][color] = l`. -/
def GameState.setCaptured (st : GameState) (color : String) (l : List String) : GameState :=
  if strEq color "red" then { st with captured_red := l } else { st with captured_blue := l }

/-- Python `game_state['captured_pieces'][color].append(piece)`. -/
def GameState.addCaptured (st : GameState) (color piece : String) : GameState :=
  st.setCaptured color (st.captured color ++ [piece])

/-- Python `game_state['player_turn_numbers'][color]`. -/
def GameState.turnNum (st : GameState) (color : String) : Nat :=
  if strEq color "red" then st.turn_red else st.turn_blue

/-- Python `game_state['player_turn_numbers'][color] = v`. -/
def GameState.setTurnNum (st : GameState) (color : String) (v : Nat) : GameState :=
  if strEq color "red" then { st with turn_red := v } else { st with turn_blue := v }

/-- Python `game_state['player_turn_numbers'][color] += 1`. -/
def GameState.incTurnNum (st : GameState) (color : String) : GameState :=
  st.setTurnNum color (st.turnNum color + 1)

/-- Python `opt == s` where `opt` may be `None`. -/
def optStrEq (opt : Option String) (s : String) : Bool :=
  match opt with
  | some v => strEq v s
  | none => false

/-! ## Check evaluator (spec section 4.3) -/

/-- The matron-mother search loop (`for node, piece in board: if piece ==
f"{color}_matron mother": ...`): first hit in dict iteration order. -/
def findMatron (board : Board) (color : String) : Option String :=
  match board with
  | [] => none
  | (n, p) :: rest =>
    if strEq p (color ++ "_matron mother") then some n else findMatron rest color

/-- The wizard-move filter the code applies in `_is_player_in_check`,
`_get_threatening_pieces` and `_does_move_resolve_check`: replace each
three-node path string by its final node, pass other entries through. -/
def wizardFilterMoves (moves : List String) : List String :=
  moves.foldr
    (fun m acc =>
      if strContains m "->" then
        match splitArrow m with
        | [_, _, c] => c :: acc
        | _ => acc
      else m :: acc)
    []

/-- `Lobby._is_player_in_check(player_color)` over an explicit board. -/
def isPlayerInCheck (cfg : Config) (board : Board) (color : String) : Bool :=
  match findMatron board color with
  | none => false
  | some mm =>
    let enemy := otherColor color
    board.any fun kv =>
      if strStartsWith kv.2 (enemy ++ "_") then
        let moves := getLegalMoves cfg kv.2 kv.1 board enemy false
        let moves := if strContains kv.2 "wizard" then wizardFilterMoves moves else moves
        listElem mm moves
      else false

/-- The scratch-board construction duplicated verbatim at the top of
`_is_move_safe_for_matron_mother` and `_does_move_resolve_check`: relocate
the piece along the move descriptor (weaponmaster pair / wizard triple /
single node), with the captured-piece deletions exactly as written.  When
the descriptor has a `->` but matches neither special form, the Python
leaves the copy untouched. -/
def simulateMove (fromNode toNode pieceName : String) (board : Board) : Board :=
  if strContains toNode "->" then
    let nodes := splitArrow toNode
    if strContains pieceName "weaponmaster" && decide (nodes.length = 2) then
      let n0 := nodes.getD 0 ""
      let n1 := nodes.getD 1 ""
      let t := boardErase board fromNode
      let t := boardInsert t n1 pieceName
      let t := boardErase t n0
      let t := boardErase t n1
      boardInsert t n1 pieceName
    else if strContains pieceName "wizard" && decide (nodes.length = 3) then
      let n2 := nodes.getD 2 ""
      let t := boardErase board fromNode
      let t := boardInsert t n2 pieceName
      let t := boardErase t n2
      boardInsert t n2 pieceName
    else board
  else boardInsert (boardErase board fromNode) toNode pieceName

/-- `Lobby._is_move_safe_for_matron_mother(from, to, piece, color)`:
simulate the move, then scan enemy pieces with the RAW destination sets
(no wizard terminal-node filtering here). -/
def isMoveSafeForMatronMother (cfg : Config) (board : Board)
    (fromNode toNode pieceName color : String) : Bool :=
  let temp := simulateMove fromNode toNode pieceName board
  match findMatron temp color with
  | none => false
  | some mm =>
    let enemy := otherColor color
    !(temp.any fun kv =>
      strStartsWith kv.2 (enemy ++ "_") &&
        listElem mm (getLegalMoves cfg kv.2 kv.1 temp enemy false))

/-- `Lobby._does_move_resolve_check(from, to, piece, color)`: like the
safety predicate, but wizard destination sets are reduced to their
terminal nodes before the membership test. -/
def doesMoveResolveCheck (cfg : Config) (board : Board)
    (fromNode toNode pieceName color : String) : Bool :=
  let temp := simulateMove fromNode toNode pieceName board
  match findMatron temp color with
  | none => false
  | some mm =>
    let enemy := otherColor color
    !(temp.any fun kv =>
      if strStartsWith kv.2 (enemy ++ "_") then
        let moves := getLegalMoves cfg kv.2 kv.1 temp enemy false
        let moves := if strContains kv.2 "wizard" then wizardFilterMoves moves else moves
        listElem mm moves
      else false)

/-- `Lobby._is_player_in_checkmate(player_color)`. -/
def isPlayerInCheckmate (cfg : Config) (board : Board) (color : String) : Bool :=
  if !(isPlayerInCheck cfg board color) then false
  else
    !(board.any fun kv =>
      strStartsWith kv.2 (color ++ "_") &&
        (getLegalMoves cfg kv.2 kv.1 board color false).any
          (fun m => doesMoveResolveCheck cfg board kv.1 m kv.2 color))

/-- `Lobby._does_player_have_legal_moves(player_color)`. -/
def doesPlayerHaveLegalMoves (cfg : Config) (board : Board) (color : String) : Bool :=
  board.any fun kv =>
    strStartsWith kv.2 (color ++ "_") &&
      (if !(isPlayerInCheck cfg board color) then
        (getLegalMoves cfg kv.2 kv.1 board color false).any
          (fun m => isMoveSafeForMatronMother cfg board kv.1 m kv.2 color)
      else
        (getLegalMoves cfg kv.2 kv.1 board color false).any
          (fun m => doesMoveResolveCheck cfg board kv.1 m kv.2 color))

/-- `Lobby.get_legal_moves_for_piece(node_id)`: PieceRules destinations of
the piece at the node (spider control for a controlled piece), filtered by
check resolution or check safety for the controlling color. -/
def getLegalMovesForPiece (cfg : Config) (st : GameState) (node : String) : List String :=
  if !st.game_started then []
  else
    match boardFind st.board node with
    | none => []
    | some pieceName =>
      let currentColor := (splitOnChar '_' pieceName).headD ""
      let isControlled := optStrEq st.controlled_piece_node node
      if !isControlled && !(strEq currentColor st.current_turn) then []
      else
        let basic := getLegalMoves cfg pieceName node st.board currentColor isControlled
        let controllingColor := if isControlled then st.current_turn else currentColor
        if isPlayerInCheck cfg st.board controllingColor then
          basic.filter fun m => doesMoveResolveCheck cfg st.board node m pieceName controllingColor
        else
          basic.filter fun m => isMoveSafeForMatronMother cfg st.board node m pieceName controllingColor

/-! ## Turn engine operations (spec section 4.4)

Each Python method returns `(False, reason)` without mutating anything, or
mutates `self.game_state` and returns `(True, state)`; here that is
`Except String GameState`.  Player-id lookup (`next(p for p in
self.players ...)`) is resolved by the HTTP/WebSocket layer to a color, so
the operations take the acting player's color directly; the "Player not
found" rejection belongs to that outer layer. -/

/-- The capture block `execute_move` repeats for each landing node: if a
piece stands there, append it to the mover's captured list and delete it
from the board.  Returns the new state and the captured-piece list. -/
def captureAt (st : GameState) (playerColor node : String) : GameState × List String :=
  match boardFind st.board node with
  | some cp => ({ st.addCaptured playerColor cp with board := boardErase st.board node }, [cp])
  | none => (st, [])

/-- `Lobby.execute_move(from_node, to_node, player_id)`: validate
ownership, legality and check safety, apply the single/two/three-node
relocation with captures, then either enter promotion mode (deferring the
turn flip) or increment the mover's counter, flip the turn and test the
opponent for checkmate/stalemate. -/
def executeMove (cfg : Config) (st : GameState)
    (fromNode toNode playerColor : String) : Except String GameState :=
  match boardFind st.board fromNode with
  | none => .error "No piece at source node"
  | some pieceName =>
    if !(strStartsWith pieceName (playerColor ++ "_")) then .error "Not your piece"
    else if !(listElem toNode (getLegalMovesForPiece cfg st fromNode)) then
      .error "Illegal move"
    else if isPlayerInCheck cfg st.board playerColor &&
        !(doesMoveResolveCheck cfg st.board fromNode toNode pieceName playerColor) then
      .error "You are in check! You must make a move that resolves the check"
    else if !(isPlayerInCheck cfg st.board playerColor) &&
        !(isMoveSafeForMatronMother cfg st.board fromNode toNode pieceName playerColor) then
      .error "This move would put your Matron Mother in check"
    else
      let execResult : Except String GameState :=
        if strContains pieceName "weaponmaster" && strContains toNode "->" then
          let nodes := splitArrow toNode
          if decide (nodes.length = 2) then
            let firstNode := nodes.getD 0 ""
            let secondNode := nodes.getD 1 ""
            let s1 := captureAt st playerColor firstNode
            let s2 := captureAt s1.1 playerColor secondNode
            .ok { s2.1 with
              board := boardInsert (boardErase s2.1.board fromNode) secondNode pieceName,
              last_move := some (.weaponTwoRec fromNode secondNode firstNode pieceName
                (s1.2 ++ s2.2) playerColor) }
          else .error "Invalid weaponmaster move format"
        else if strContains pieceName "wizard" && strContains toNode "->" then
          let nodes := splitArrow toNode
          if decide (nodes.length = 3) then
            let firstNode := nodes.getD 0 ""
            let secondNode := nodes.getD 1 ""
            let thirdNode := nodes.getD 2 ""
            let friendlyBlock :=
              match boardFind st.board thirdNode with
              | some p => strStartsWith p (playerColor ++ "_")
              | none => false
            if friendlyBlock then .error "Cannot end move on a friendly piece"
            else
              let s1 := captureAt st playerColor thirdNode
              .ok { s1.1 with
                board := boardInsert (boardErase s1.1.board fromNode) thirdNode pieceName,
                last_move := some (.wizardThreeRec fromNode thirdNode [firstNode, secondNode]
                  pieceName s1.2 playerColor) }
          else .error "Invalid wizard move format"
        else
          let stD := { st with board := boardErase st.board fromNode }
          let s1 := captureAt stD playerColor toNode
          .ok { s1.1 with
            board := boardInsert s1.1.board toNode pieceName,
            last_move := some (.singleMoveRec fromNode toNode pieceName s1.2 playerColor) }
      match execResult with
      | .error e => .error e
      | .ok stM =>
        let finalDestination :=
          if strContains toNode "->" then
            let nodes := splitArrow toNode
            if strContains pieceName "weaponmaster" && decide (nodes.length = 2) then
              nodes.getD 1 ""
            else if strContains pieceName "wizard" && decide (nodes.length = 3) then
              nodes.getD 2 ""
            else toNode
          else toNode
        if canOrcPromote cfg pieceName finalDestination playerColor &&
            !(getPromotablePieces (stM.captured (otherColor playerColor))).isEmpty then
          .ok { stM with
            promotion_mode := true,
            promotion_player := some playerColor,
            promotion_node := some finalDestination,
            promotion_orc := some pieceName }
        else
          let stT := stM.incTurnNum playerColor
          let nextColor := otherColor stT.current_turn
          let stT := { stT with current_turn := nextColor }
          if isPlayerInCheckmate cfg stT.board nextColor then
            .ok { stT with
              game_over := true, winner := some playerColor,
              game_end_reason := some "checkmate" }
          else if !(doesPlayerHaveLegalMoves cfg stT.board nextColor) then
            .ok { stT with
              game_over := true, winner := some playerColor,
              game_end_reason := some "stalemate" }
          else .ok stT

/-- Die classification in `roll_spider_dice`: faces 5-8 are spiders. -/
def dieSpider (d : Nat) : Bool := decide (5 ≤ d)

/-- `Lobby.roll_spider_dice(player_id)`, with the two drawn faces passed in
(the Python draws them with `random.randint(1, 8)`).  Validation: game
started, the roller is the current color, and the roller's turn counter has
reached `SPIDER_DICE_MIN_TURN`.  The roller's counter is reset to zero on
every accepted roll; double knives enter sacrifice mode, double spiders
enter spider-control mode, and a mixed roll flips the turn. -/
def rollSpiderDice (cfg : Config) (st : GameState) (playerColor : String)
    (die1 die2 : Nat) : Except String GameState :=
  if !st.game_started then .error "Game not started"
  else if !(strEq playerColor st.current_turn) then .error "Not your turn"
  else if st.turnNum playerColor < cfg.spiderDiceMinTurn then
    .error "Must wait until the minimum turn for spider dice"
  else
    let s1 := dieSpider die1
    let s2 := dieSpider die2
    let bothSpiders := s1 && s2
    let bothKnives := !s1 && !s2
    let stR := st.setTurnNum playerColor 0
    let stR := { stR with last_move := some (.diceRollRec playerColor die1 die2) }
    if bothKnives then
      .ok { stR with sacrifice_mode := true, sacrifice_player := some playerColor }
    else if bothSpiders then
      .ok { stR with spider_control_mode := true, spider_control_player := some playerColor }
    else
      .ok { stR with current_turn := otherColor stR.current_turn }

/-- `Lobby.sacrifice_piece(node_id, player_id)`: in sacrifice mode only the
designated roller may act; otherwise any current-turn player may sacrifice
voluntarily.  The actor's own piece at the node is removed; a sacrifice-
mode sacrifice clears the mode and flips the turn, a normal-mode sacrifice
increments the actor's counter and flips the turn. -/
def sacrificePiece (st : GameState) (nodeId playerColor : String) : Except String GameState :=
  if !st.game_started then .error "Game not started"
  else if st.sacrifice_mode && !(optStrEq st.sacrifice_player playerColor) then
    .error "Only the player who rolled double knives can sacrifice"
  else if !st.sacrifice_mode && !(strEq playerColor st.current_turn) then
    .error "Not your turn"
  else
    match boardFind st.board nodeId with
    | none => .error "No piece at specified node"
    | some pieceName =>
      if !(strStartsWith pieceName (playerColor ++ "_")) then
        .error "Cannot sacrifice enemy piece"
      else
        let stR := { st with
          board := boardErase st.board nodeId,
          last_move := some (.sacrificedRec playerColor pieceName nodeId) }
        if stR.sacrifice_mode then
          let stR := { stR with sacrifice_mode := false, sacrifice_player := none }
          .ok { stR with current_turn := otherColor stR.current_turn }
        else
          let stR := stR.incTurnNum playerColor
          .ok { stR with current_turn := otherColor stR.current_turn }

/-- `Lobby.control_enemy_piece(node_id, player_id)`: in spider-control mode
the designated roller seizes an enemy, non-matron-mother piece; the
controlled node, piece name and original color are recorded and the turn
does not flip. -/
def controlEnemyPiece (st : GameState) (nodeId playerColor : String) : Except String GameState :=
  if !st.game_started then .error "Game not started"
  else if !st.spider_control_mode then .error "Not in spider control mode"
  else if !(optStrEq st.spider_control_player playerColor) then
    .error "Not your spider control turn"
  else
    match boardFind st.board nodeId with
    | none => .error "No piece at specified node"
    | some pieceName =>
      let enemyColor := otherColor playerColor
      if !(strStartsWith pieceName (enemyColor ++ "_")) then
        .error "Can only control enemy pieces"
      else if strContains pieceName "matron mother" then
        .error "Cannot control the matron mother"
      else
        .ok { st with
          controlled_piece_node := some nodeId,
          controlled_piece_name := some pieceName,
          controlled_piece_original_color := some enemyColor,
          last_move := some (.controlledRec playerColor pieceName nodeId) }

/-- `Lobby.execute_controlled_move(from_node, to_node, player_id)`:
validate against the recorded seizure, temporarily recolor the piece to
the controller's color, run `execute_move`, restore the original piece
name at the final position, clear the control fields, increment the
controller's counter and flip the turn.  (On `execute_move` failure the
Python restores the temporarily recolored board entry and returns the
error, which the pure embedding renders by returning the error with the
input state untouched.) -/
def executeControlledMove (cfg : Config) (st : GameState)
    (fromNode toNode playerColor : String) : Except String GameState :=
  if !st.game_started then .error "Game not started"
  else
    match st.controlled_piece_node with
    | none => .error "No piece under control"
    | some ctrlNode =>
      if !(optStrEq st.spider_control_player playerColor) then
        .error "Not your controlled piece"
      else if !(strEq fromNode ctrlNode) then .error "Can only move the controlled piece"
      else
        let pieceName := st.controlled_piece_name.getD ""
        let originalColor := st.controlled_piece_original_color.getD ""
        let basic := getLegalMoves cfg pieceName fromNode st.board originalColor true
        if !(listElem toNode basic) then .error "Invalid move for this piece type"
        else
          let tempPieceName := playerColor ++ "_" ++ afterFirstUnderscore pieceName
          let stT := { st with board := boardInsert st.board fromNode tempPieceName }
          match executeMove cfg stT fromNode toNode playerColor with
          | .error e => .error e
          | .ok stR =>
            let finalPosition :=
              if strContains toNode "->" then
                if strContains pieceName "weaponmaster" then
                  let nodes := splitArrow toNode
                  if decide (nodes.length = 2) then nodes.getD 1 "" else toNode
                else if strContains pieceName "wizard" then
                  let nodes := splitArrow toNode
                  if decide (nodes.length = 3) then nodes.getD 2 "" else toNode
                else toNode
              else toNode
            let stR := { stR with board := boardInsert stR.board finalPosition pieceName }
            let capturedPieces :=
              match stR.last_move with
              | some lm => lm.getCaptured
              | none => []
            let stR := { stR with
              last_move := some (.controlledMoveRec fromNode finalPosition pieceName
                capturedPieces playerColor originalColor),
              spider_control_mode := false,
              spider_control_player := none,
              controlled_piece_node := none,
              controlled_piece_name := none,
              controlled_piece_original_color := none }
            let stR := stR.incTurnNum playerColor
            .ok { stR with current_turn := otherColor stR.current_turn }

/-- `Lobby.promote_orc(player_id, selected_piece)`: in promotion mode, the
designated player picks a promotable piece from the enemy's captured pool;
it is removed from that pool and replaces the orc at the promotion node,
the mode is cleared, the counter incremented and the turn flipped. -/
def promoteOrc (st : GameState) (playerColor selectedPiece : String) : Except String GameState :=
  if !st.game_started then .error "Game not started"
  else if !st.promotion_mode then .error "Not in promotion mode"
  else if !(optStrEq st.promotion_player playerColor) then .error "Not your promotion"
  else
    let enemyColor := otherColor playerColor
    let capturedL := st.captured enemyColor
    let promotable := getPromotablePieces capturedL
    if !(listElem selectedPiece promotable) then
      .error "Selected piece not available for promotion"
    else
      let stR := st.setCaptured enemyColor (listEraseFirst capturedL selectedPiece)
      let promotionNode := stR.promotion_node.getD ""
      let stR := { stR with
        board := boardInsert stR.board promotionNode selectedPiece,
        last_move := some (.promotionRec playerColor (stR.promotion_orc.getD "")
          selectedPiece promotionNode) }
      let stR := { stR with
        promotion_mode := false,
        promotion_player := none,
        promotion_node := none,
        promotion_orc := none }
      let stR := stR.incTurnNum playerColor
      .ok { stR with current_turn := otherColor stR.current_turn }

/-! ## Concrete fixtures used by the evaluation theorems -/

/-- Strand-free configuration (ring and center adjacency are hard-coded in
`get_neighboring_nodes` and do not depend on the data file). -/
def cfg0 : Config := { strands := [], reszonesRed := [], reszonesBlue := [], spiderDiceMinTurn := 0 }

/-- Red matron mother on `R1N0`, blue weaponmaster two hops away on `R1N2`. -/
def board1 : Board := [("R1N0", "red_matron mother"), ("R1N2", "blue_weaponmaster")]

/-- Red matron mother on `R1N0`, blue wizard three hops away on `R1N3`, and
an unrelated red orc on `R2N0`. -/
def board2 : Board := [("R1N0", "red_matron mother"), ("R1N3", "blue_wizard"), ("R2N0", "red_orc")]

/-- A session already ended by timeout (`game_over` set, winner blue), with
the current turn still on red and a red orc free to move. -/
def st3 : GameState := { initialGameState with
  board := [("R1N0", "red_matron mother"), ("R2N0", "blue_matron mother"), ("R1N4", "red_orc")],
  current_turn := "red", game_started := true, game_over := true,
  winner := some "blue", game_end_reason := some "timeout" }

/-- Configuration with a single four-node strand `X0-X1-X2-X3` (Modelled
from the spec: a strand is a config-defined ordered node sequence from
`game-config.json`, absent from the source tree). -/
def cfg4 : Config := { strands := [["X0", "X1", "X2", "X3"]], reszonesRed := [], reszonesBlue := [], spiderDiceMinTurn := 0 }

/-- Red priestess on strand position `X2`, own orc blocking `X1`. -/
def board4 : Board := [("X2", "red_priestess"), ("X1", "red_orc")]

/-- Normal-mode state (no sub-phase active), red to move, red orc on `R1N1`. -/
def st6 : GameState := { initialGameState with
  board := [("R1N1", "red_orc")], current_turn := "red", game_started := true }

/-- Configuration requiring two completed turns before a dice roll. -/
def cfg7 : Config := { strands := [], reszonesRed := [], reszonesBlue := [], spiderDiceMinTurn := 2 }

/-- A session in the PROMOTION sub-phase for red (turn not yet flipped),
with red's turn counter far above the dice-roll minimum. -/
def st7 : GameState := { initialGameState with
  board := [("R1N1", "red_orc")], current_turn := "red", game_started := true,
  promotion_mode := true, promotion_player := some "red",
  promotion_node := some "R1N1", promotion_orc := some "red_orc", turn_red := 5 }

/-- A session in spider-control mode for red after a double-spider roll,
with a blue orc on `R3N0` available to seize. -/
def st9 : GameState := { initialGameState with
  board := [("R1N0", "red_matron mother"), ("R1N8", "blue_matron mother"), ("R3N0", "blue_orc")],
  current_turn := "red", game_started := true,
  spider_control_mode := true, spider_control_player := some "red" }

/-! ## Claim theorems -/

/-- C1 — the check predicate does NOT satisfy the claimed equivalence: on
`board1` the blue weaponmaster has the legal move `"R1N1->R1N0"` whose
terminal node `R1N0` is red's matron mother node, yet
`_is_player_in_check` reports red as not in check.  The check loop
compares the matron node against the weaponmaster's raw `"first->second"`
path strings (only wizard paths are reduced to their terminal node), so a
weaponmaster threat is never detected. -/
theorem c1_weaponmaster_threat_not_detected :
    isPlayerInCheck cfg0 board1 "red" = false ∧
    listElem "R1N1->R1N0" (getLegalMovesForWeaponmaster cfg0 "R1N2" board1 "blue" false) = true ∧
    findMatron board1 "red" = some "R1N0" := by
  refine ⟨by decide, by decide, by decide⟩

/-- C2 — the move-safety predicate and the check-resolution predicate are
NOT the same predicate: for the red orc move `R2N0 → R2N1` on `board2`,
`_is_move_safe_for_matron_mother` answers true while
`_does_move_resolve_check` answers false, and `_is_player_in_check` on the
shared scratch board confirms red IS in check there (the blue wizard's
terminal node reaches the matron).  Only the resolution predicate reduces
wizard paths to their terminal node; the safety predicate compares the
matron node against raw `"a->b->c"` strings and so never sees wizard
threats. -/
theorem c2_safety_and_resolution_disagree :
    isMoveSafeForMatronMother cfg0 board2 "R2N0" "R2N1" "red_orc" "red" = true ∧
    doesMoveResolveCheck cfg0 board2 "R2N0" "R2N1" "red_orc" "red" = false ∧
    isPlayerInCheck cfg0 (simulateMove "R2N0" "R2N1" "red_orc" board2) "red" = true := by
  refine ⟨by decide, by decide, by decide⟩

/-- C3 — the board is NOT frozen once a terminal `GameResult` is set: on
`st3`, a timeout-terminated game (`game_over = true`), `execute_move` still
accepts red's orc move `R1N4 → R1N5` and mutates the board.  No engine
operation checks `game_over`; only `handle_player_timeout` does. -/
theorem c3_terminal_state_accepts_move :
    (executeMove cfg0 st3 "R1N4" "R1N5" "red").toOption.map
      (fun s => (boardFind s.board "R1N4", boardFind s.board "R1N5", s.game_over)) =
      some (none, some "red_orc", true) := by
  decide

/-- C4 — a priestess DOES obtain a destination beyond the end of a strand:
on the strand `X0-X1-X2-X3` of `cfg4` with the priestess at `X2` and an own
piece at `X1`, the positive-direction slide passes the strand end `X3`,
wraps to `X0` via the `% path_length` index arithmetic (the source computes
an `is_ring` flag for this but never uses it), and yields `X0` as a legal
destination, which the claim forbids. -/
theorem c4_priestess_wraps_strand_end :
    listElem "X0" (getLegalMovesForPriestess cfg4 "X2" board4 "red" false) = true ∧
    getLegalMovesForPriestess cfg4 "X2" board4 "red" false = ["X3", "X0"] := by
  refine ⟨by decide, by decide⟩

/-- C6 counterexample — a sacrifice is accepted OUTSIDE the SACRIFICE
sub-phase: on `st6` (no sub-phase active) the current-turn player red
sacrifices the own orc at `R1N1`; the call succeeds, removes the piece,
increments red's counter and flips the turn, contradicting "valid only
while the SACRIFICE sub-phase is active". -/
theorem c6_counterexample_normal_mode_sacrifice :
    st6.sacrifice_mode = false ∧
    (sacrificePiece st6 "R1N1" "red").toOption.map
      (fun s => (boardFind s.board "R1N1", s.current_turn, s.turn_red)) =
      some (none, "blue", 1) := by
  refine ⟨by decide, by decide⟩

/-- C7 counterexample — a dice roll is accepted while the PROMOTION
sub-phase is active: on `st7` (promotion pending for red, turn not yet
flipped) red's roll is accepted — here double knives, which additionally
activates sacrifice mode while promotion mode is still set — contradicting
"accepted only when the sub-phase is NORMAL". -/
theorem c7_counterexample_roll_in_promotion_mode :
    st7.promotion_mode = true ∧
    (rollSpiderDice cfg7 st7 "red" 1 1).toOption.map
      (fun s => (s.sacrifice_mode, s.promotion_mode, s.turn_red)) =
      some (true, true, 0) := by
  refine ⟨by decide, by decide⟩

/-- C9 — after a successful `control_enemy_piece` and
`execute_controlled_move` on `st9`, the seized blue orc does stand at its
destination `R3N1` with its original color and every control field is
cleared, but the turn does NOT flip and the counter rises by two:
`execute_move` already incremented red's counter and flipped the turn, and
`execute_controlled_move` then increments and flips again, so play returns
to the controller with `turn_red = 2`. -/
theorem c9_controlled_move_turn_not_flipped :
    ((controlEnemyPiece st9 "R3N0" "red").toOption.bind
      (fun s1 => (executeControlledMove cfg0 s1 "R3N0" "R3N1" "red").toOption)).map
      (fun s => (boardFind s.board "R3N1", s.controlled_piece_node, s.controlled_piece_name,
        s.controlled_piece_original_color, s.spider_control_mode, s.spider_control_player,
        s.current_turn, s.turn_red)) =
      some (some "blue_orc", none, none, none, false, none, "red", 2) := by
  rfl

/-! ## Helper lemmas -/

theorem strEq_iff {a b : String} : strEq a b = true ↔ a = b := decide_eq_true_iff

theorem strEq_refl (a : String) : strEq a a = true := strEq_iff.mpr rfl

theorem listElem_iff_mem {x : String} {l : List String} : listElem x l = true ↔ x ∈ l := by
  unfold listElem
  rw [List.any_eq_true]
  constructor
  · rintro ⟨y, hy, he⟩
    rw [strEq_iff.mp he]
    exact hy
  · intro hx
    exact ⟨x, hx, strEq_refl x⟩

theorem listElem_filter {x : String} {p : String → Bool} {l : List String} :
    listElem x (l.filter p) = true ↔ (listElem x l = true ∧ p x = true) := by
  rw [listElem_iff_mem, List.mem_filter, ← listElem_iff_mem]

theorem prefix_excl {l : List Char} {a b : Char} {as bs : List Char} (hab : ¬ a = b)
    (h : charListStarts (a :: as) l = true) : charListStarts (b :: bs) l = false := by
  cases l with
  | nil => simp [charListStarts] at h
  | cons c cs =>
    simp only [charListStarts] at h ⊢
    by_cases hac : a = c
    · by_cases hbc : b = c
      · exact absurd (hac.trans hbc.symm) hab
      · simp [hbc]
    · simp [hac] at h

/-- For the two real colors, an enemy-prefixed piece name never carries the
own-color prefix. -/
theorem isEnemyPiece_not_own {p color : String} (hc : color = "red" ∨ color = "blue")
    (h : isEnemyPiece p color = true) : strStartsWith p (color ++ "_") = false := by
  rcases hc with rfl | rfl
  · unfold isEnemyPiece at h
    split at h
    · simp at h
    · have h2 : charListStarts ('b' :: "lue_".data) p.data = true := h
      show charListStarts ('r' :: "ed_".data) p.data = false
      exact prefix_excl (by decide) h2
  · unfold isEnemyPiece at h
    split at h
    · simp at h
    · have h2 : charListStarts ('r' :: "ed_".data) p.data = true := h
      show charListStarts ('b' :: "lue_".data) p.data = false
      exact prefix_excl (by decide) h2

/-! ## Spec-side occupancy predicates (vocabulary for the claims) -/

/-- The destination holds an enemy piece. -/
def occEnemy (board : Board) (d color : String) : Bool :=
  match boardFind board d with
  | some p => isEnemyPiece p color
  | none => false

/-- The destination holds a piece with the mover's own color prefix. -/
def occOwn (board : Board) (d color : String) : Bool :=
  match boardFind board d with
  | some p => strStartsWith p (color ++ "_")
  | none => false

/-- C5 — orc movement.  For every configuration, board, real color, spider
control flag, orc position and candidate node: an enemy-occupied neighbor
is always a legal capture; an own-piece-occupied neighbor is legal exactly
under spider control; and an empty neighbor is legal exactly when the orc
is not currently adjacent to any enemy or the destination is adjacent to
at least one enemy. -/
theorem c5_orc_moves_characterization (cfg : Config) (board : Board) (color : String)
    (sc : Bool) (node d : String) (hc : color = "red" ∨ color = "blue") :
    (occEnemy board d color = true →
      (listElem d (getLegalMovesForOrc cfg node board color sc) = true ↔
        listElem d (getNeighboringNodes cfg node) = true)) ∧
    (occOwn board d color = true →
      (listElem d (getLegalMovesForOrc cfg node board color sc) = true ↔
        (listElem d (getNeighboringNodes cfg node) = true ∧ sc = true))) ∧
    (boardFind board d = none →
      (listElem d (getLegalMovesForOrc cfg node board color sc) = true ↔
        (listElem d (getNeighboringNodes cfg node) = true ∧
          (hasEnemyNeighbors cfg node board color = false ∨
            hasEnemyNeighbors cfg d board color = true)))) := by
  unfold getLegalMovesForOrc
  refine ⟨?_, ?_, ?_⟩
  · intro h
    unfold occEnemy at h
    rw [listElem_filter]
    cases hbd : boardFind board d with
    | none => rw [hbd] at h; simp at h
    | some p =>
      rw [hbd] at h
      have h2 : isEnemyPiece p color = true := h
      simp only [hbd]
      have hown := isEnemyPiece_not_own hc h2
      rw [hown]
      simp
  · intro h
    unfold occOwn at h
    rw [listElem_filter]
    cases hbd : boardFind board d with
    | none => rw [hbd] at h; simp at h
    | some p =>
      rw [hbd] at h
      have h2 : strStartsWith p (color ++ "_") = true := h
      simp only [hbd, h2]
      simp
  · intro h
    rw [listElem_filter]
    simp only [h]
    constructor
    · rintro ⟨h1, h2⟩
      refine ⟨h1, ?_⟩
      rcases Bool.or_eq_true _ _ |>.mp h2 with h3 | h3
      · exact Or.inl (by simpa using h3)
      · exact Or.inr h3
    · rintro ⟨h1, h2⟩
      refine ⟨h1, ?_⟩
      rcases h2 with h3 | h3
      · simp [h3]
      · simp [h3]

/-- C5 witness: on the strand-free configuration, an orc on `R1N0` of an
otherwise empty board may step to the empty neighbor `R1N1`. -/
theorem c5_orc_moves_witness :
    listElem "R1N1" (getLegalMovesForOrc cfg0 "R1N0" [("R1N0", "red_orc")] "red" false) = true :=
  ((c5_orc_moves_characterization cfg0 [("R1N0", "red_orc")] "red" false "R1N0" "R1N1"
    (Or.inl rfl)).2.2 (by decide)).mpr ⟨by decide, Or.inl (by decide)⟩

/-! ## Frame lemmas for the color-indexed state accessors -/

theorem setTurnNum_frame (st : GameState) (c : String) (v : Nat) :
    (st.setTurnNum c v).board = st.board ∧
    (st.setTurnNum c v).current_turn = st.current_turn ∧
    (st.setTurnNum c v).game_started = st.game_started ∧
    (st.setTurnNum c v).captured_red = st.captured_red ∧
    (st.setTurnNum c v).captured_blue = st.captured_blue := by
  unfold GameState.setTurnNum
  cases h : strEq c "red" <;> simp

theorem turnNum_setTurnNum_self (st : GameState) (c : String) (v : Nat) :
    (st.setTurnNum c v).turnNum c = v := by
  unfold GameState.setTurnNum GameState.turnNum
  cases h : strEq c "red" <;> simp [h]

theorem turnNum_setTurnNum_other (st : GameState) (c : String) (v : Nat) :
    (st.setTurnNum c v).turnNum (otherColor c) = st.turnNum (otherColor c) := by
  unfold GameState.setTurnNum GameState.turnNum otherColor
  cases h : strEq c "red" <;>
    simp [h, show strEq "red" "red" = true from rfl, show strEq "blue" "red" = false from rfl]

theorem turnNum_incTurnNum_self (st : GameState) (c : String) :
    (st.incTurnNum c).turnNum c = st.turnNum c + 1 := by
  unfold GameState.incTurnNum
  exact turnNum_setTurnNum_self st c _

theorem setCaptured_frame (st : GameState) (c : String) (l : List String) :
    (st.setCaptured c l).board = st.board ∧
    (st.setCaptured c l).current_turn = st.current_turn ∧
    (st.setCaptured c l).game_started = st.game_started ∧
    (st.setCaptured c l).turn_red = st.turn_red ∧
    (st.setCaptured c l).turn_blue = st.turn_blue ∧
    (st.setCaptured c l).promotion_mode = st.promotion_mode ∧
    (st.setCaptured c l).promotion_player = st.promotion_player ∧
    (st.setCaptured c l).promotion_node = st.promotion_node ∧
    (st.setCaptured c l).promotion_orc = st.promotion_orc := by
  unfold GameState.setCaptured
  cases h : strEq c "red" <;> simp

theorem setCaptured_captured_self (st : GameState) (c : String) (l : List String) :
    (st.setCaptured c l).captured c = l := by
  unfold GameState.setCaptured GameState.captured
  cases h : strEq c "red" <;> simp [h]

theorem setCaptured_captured_other (st : GameState) (c : String) (l : List String) :
    (st.setCaptured c l).captured (otherColor c) = st.captured (otherColor c) := by
  unfold GameState.setCaptured GameState.captured otherColor
  cases h : strEq c "red" <;>
    simp [h, show strEq "red" "red" = true from rfl, show strEq "blue" "red" = false from rfl]

theorem turnNum_setCaptured (st : GameState) (c c2 : String) (l : List String) :
    (st.setCaptured c l).turnNum c2 = st.turnNum c2 := by
  unfold GameState.turnNum
  rw [(setCaptured_frame st c l).2.2.2.1, (setCaptured_frame st c l).2.2.2.2.1]

theorem captureAt_frame (st : GameState) (pc n : String) :
    (captureAt st pc n).1.current_turn = st.current_turn ∧
    (captureAt st pc n).1.game_started = st.game_started ∧
    (captureAt st pc n).1.captured (otherColor pc) = st.captured (otherColor pc) ∧
    (captureAt st pc n).1.turn_red = st.turn_red ∧
    (captureAt st pc n).1.turn_blue = st.turn_blue := by
  unfold captureAt
  cases h : boardFind st.board n with
  | none => simp
  | some cp =>
    simp only
    unfold GameState.addCaptured
    refine ⟨(setCaptured_frame st pc _).2.1, (setCaptured_frame st pc _).2.2.1,
      setCaptured_captured_other st pc _, (setCaptured_frame st pc _).2.2.2.1,
      (setCaptured_frame st pc _).2.2.2.2.1⟩

/-- C10 — every accepted `roll_spider_dice` resets the roller's turn
counter to zero regardless of the dice outcome (double knives, double
spiders, or mixed), and the other player's counter is unchanged. -/
theorem c10_roll_resets_counter (cfg : Config) (st stR : GameState) (actor : String)
    (d1 d2 : Nat) (hok : rollSpiderDice cfg st actor d1 d2 = .ok stR) :
    stR.turnNum actor = 0 ∧ stR.turnNum (otherColor actor) = st.turnNum (otherColor actor) := by
  unfold rollSpiderDice at hok
  split at hok
  · simp at hok
  · split at hok
    · simp at hok
    · split at hok
      · simp at hok
      · simp only [] at hok
        split at hok
        · simp only [Except.ok.injEq] at hok
          subst hok
          exact ⟨turnNum_setTurnNum_self st actor 0, turnNum_setTurnNum_other st actor 0⟩
        · split at hok
          · simp only [Except.ok.injEq] at hok
            subst hok
            exact ⟨turnNum_setTurnNum_self st actor 0, turnNum_setTurnNum_other st actor 0⟩
          · simp only [Except.ok.injEq] at hok
            subst hok
            exact ⟨turnNum_setTurnNum_self st actor 0, turnNum_setTurnNum_other st actor 0⟩

/-- C10 witness: a concrete accepted mixed roll by red on a started game. -/
theorem c10_roll_resets_counter_witness :
    ((rollSpiderDice cfg0 st6 "red" 2 8).toOption.getD initialGameState).turnNum "red" = 0 ∧
    ((rollSpiderDice cfg0 st6 "red" 2 8).toOption.getD initialGameState).turnNum
      (otherColor "red") = st6.turnNum (otherColor "red") :=
  c10_roll_resets_counter cfg0 st6
    ((rollSpiderDice cfg0 st6 "red" 2 8).toOption.getD initialGameState) "red" 2 8 rfl

/-- C6 (amended) — sacrifice validity and effects.  While SACRIFICE is
active, only the designated roller may act: any other color is rejected
(with the state unchanged, as rejections return before any mutation); the
roller's accepted sacrifice removes their own piece at the node, clears the
sub-phase and flips the turn without touching the turn counters.  Amended
beyond the original claim: outside the SACRIFICE sub-phase the
current-turn player may also sacrifice an own piece voluntarily, which
additionally increments their turn counter before the turn flips. -/
theorem c6_sacrifice_amended (st : GameState) (node actor piece : String)
    (hg : st.game_started = true) :
    (st.sacrifice_mode = true → optStrEq st.sacrifice_player actor = false →
      sacrificePiece st node actor =
        .error "Only the player who rolled double knives can sacrifice") ∧
    (st.sacrifice_mode = true → st.sacrifice_player = some actor →
      boardFind st.board node = some piece → strStartsWith piece (actor ++ "_") = true →
      sacrificePiece st node actor = .ok { st with
        board := boardErase st.board node,
        last_move := some (.sacrificedRec actor piece node),
        sacrifice_mode := false,
        sacrifice_player := none,
        current_turn := otherColor st.current_turn }) ∧
    (st.sacrifice_mode = false → strEq actor st.current_turn = true →
      boardFind st.board node = some piece → strStartsWith piece (actor ++ "_") = true →
      sacrificePiece st node actor = .ok { st.incTurnNum actor with
        board := boardErase st.board node,
        last_move := some (.sacrificedRec actor piece node),
        current_turn := otherColor st.current_turn }) := by
  refine ⟨?_, ?_, ?_⟩
  · intro hmode hop
    simp [sacrificePiece, hg, hmode, hop]
  · intro hmode hpl hbd hpiece
    simp [sacrificePiece, hg, hmode, hpl, hbd, hpiece, optStrEq, strEq_refl]
  · intro hmode hturn hbd hpiece
    cases hr : strEq actor "red" <;>
      simp [sacrificePiece, hg, hmode, hturn, hbd, hpiece,
        GameState.incTurnNum, GameState.setTurnNum, GameState.turnNum, hr]

/-- C6 witness: concrete sacrifice-mode state in which the designated
roller red sacrifices the orc on `R1N1`. -/
theorem c6_sacrifice_amended_witness :
    sacrificePiece { st6 with sacrifice_mode := true, sacrifice_player := some "red" }
      "R1N1" "red" =
      .ok { { st6 with sacrifice_mode := true, sacrifice_player := some "red" } with
        board := boardErase st6.board "R1N1",
        last_move := some (.sacrificedRec "red" "red_orc" "R1N1"),
        sacrifice_mode := false,
        sacrifice_player := none,
        current_turn := otherColor st6.current_turn } :=
  (c6_sacrifice_amended { st6 with sacrifice_mode := true, sacrifice_player := some "red" }
    "R1N1" "red" "red_orc" rfl).2.1 rfl rfl rfl rfl

/-- C7 (amended) — dice-roll validity and effects.  A roll is rejected
(before any mutation) when the caller is not the current color or the
caller's turn counter is below the configured minimum; otherwise it is
accepted — regardless of which sub-phase is active, as the code never
checks the sub-phase flags — and double knives enter SACRIFICE for the
roller, double spiders enter SPIDER_CONTROL for the roller, and a mixed
result flips the turn immediately (the counter reset common to all three
outcomes is claim C10). -/
theorem c7_roll_dice_amended (cfg : Config) (st : GameState) (actor : String) (d1 d2 : Nat)
    (hg : st.game_started = true) :
    (strEq actor st.current_turn = false →
      rollSpiderDice cfg st actor d1 d2 = .error "Not your turn") ∧
    (strEq actor st.current_turn = true → st.turnNum actor < cfg.spiderDiceMinTurn →
      rollSpiderDice cfg st actor d1 d2 =
        .error "Must wait until the minimum turn for spider dice") ∧
    (strEq actor st.current_turn = true → cfg.spiderDiceMinTurn ≤ st.turnNum actor →
      ((dieSpider d1 = false → dieSpider d2 = false →
        rollSpiderDice cfg st actor d1 d2 = .ok { st.setTurnNum actor 0 with
          last_move := some (.diceRollRec actor d1 d2),
          sacrifice_mode := true, sacrifice_player := some actor }) ∧
      (dieSpider d1 = true → dieSpider d2 = true →
        rollSpiderDice cfg st actor d1 d2 = .ok { st.setTurnNum actor 0 with
          last_move := some (.diceRollRec actor d1 d2),
          spider_control_mode := true, spider_control_player := some actor }) ∧
      (¬ dieSpider d1 = dieSpider d2 →
        rollSpiderDice cfg st actor d1 d2 = .ok { st.setTurnNum actor 0 with
          last_move := some (.diceRollRec actor d1 d2),
          current_turn := otherColor st.current_turn }))) := by
  refine ⟨?_, ?_, ?_⟩
  · intro hturn
    simp [rollSpiderDice, hg, hturn]
  · intro hturn hlt
    simp [rollSpiderDice, hg, hturn, hlt]
  · intro hturn hle
    have hnl : ¬ st.turnNum actor < cfg.spiderDiceMinTurn := by omega
    refine ⟨?_, ?_, ?_⟩
    · intro h1 h2
      cases hr : strEq actor "red" <;>
        simp [rollSpiderDice, hg, hturn, hnl, h1, h2,
          GameState.setTurnNum, hr]
    · intro h1 h2
      cases hr : strEq actor "red" <;>
        simp [rollSpiderDice, hg, hturn, hnl, h1, h2,
          GameState.setTurnNum, hr]
    · intro hne
      cases h1 : dieSpider d1 <;> cases h2 : dieSpider d2
      · exact absurd (h1.trans h2.symm) hne
      · cases hr : strEq actor "red" <;>
          simp [rollSpiderDice, hg, hturn, hnl, h1, h2,
            GameState.setTurnNum, hr]
      · cases hr : strEq actor "red" <;>
          simp [rollSpiderDice, hg, hturn, hnl, h1, h2,
            GameState.setTurnNum, hr]
      · exact absurd (h1.trans h2.symm) hne

/-- C7 witness: red's mixed roll (faces 2 and 8) on the normal-mode state
`st6` under the strand-free zero-minimum configuration is accepted and
flips the turn. -/
theorem c7_roll_dice_amended_witness :
    rollSpiderDice cfg0 st6 "red" 2 8 = .ok { st6.setTurnNum "red" 0 with
      last_move := some (.diceRollRec "red" 2 8),
      current_turn := otherColor st6.current_turn } :=
  ((c7_roll_dice_amended cfg0 st6 "red" 2 8 rfl).2.2 rfl (by decide)).2.2 (by decide)

theorem captured_withBoardLast (s : GameState) (b : Board) (l : Option LastMove) (c : String) :
    GameState.captured { s with board := b, last_move := l } c = s.captured c := rfl

/-- Effects of an accepted `promote_orc` call, for any state it accepts. -/
theorem promoteOrc_ok_effects (s sB : GameState) (pc selected : String)
    (hok : promoteOrc s pc selected = .ok sB) :
    sB.captured (otherColor pc) = listEraseFirst (s.captured (otherColor pc)) selected ∧
    sB.board = boardInsert s.board (s.promotion_node.getD "") selected ∧
    sB.promotion_mode = false ∧ sB.promotion_player = none ∧
    sB.promotion_node = none ∧ sB.promotion_orc = none ∧
    sB.turnNum pc = s.turnNum pc + 1 ∧
    sB.current_turn = otherColor s.current_turn := by
  unfold promoteOrc at hok
  split at hok
  · simp at hok
  · split at hok
    · simp at hok
    · split at hok
      · simp at hok
      · simp only [] at hok
        split at hok
        · simp at hok
        · simp only [Except.ok.injEq] at hok
          subst hok
          cases hpc : strEq pc "red" <;>
            simp [GameState.captured, GameState.setCaptured, GameState.turnNum,
              GameState.incTurnNum, GameState.setTurnNum, otherColor, hpc,
              show strEq "red" "red" = true from rfl,
              show strEq "blue" "red" = false from rfl]

set_option maxHeartbeats 2000000 in
/-- The promotion-entry branch of `execute_move`: an accepted plain-node
move of an orc onto a resurrection-zone node, with a promotable piece in
the opponent's captured pool, records the PROMOTION sub-phase and leaves
the current turn unchanged. -/
theorem executeMove_promotion_entry (cfg : Config) (s sA : GameState)
    (fromNode toNode pc pieceName : String)
    (hb : boardFind s.board fromNode = some pieceName)
    (horc : strContains pieceName "orc" = true)
    (harrow : strContains toNode "->" = false)
    (hzone : listElem toNode (cfg.reszones pc) = true)
    (hpool : (getPromotablePieces (s.captured (otherColor pc))).isEmpty = false)
    (hok : executeMove cfg s fromNode toNode pc = .ok sA) :
    sA.promotion_mode = true ∧ sA.promotion_player = some pc ∧
    sA.promotion_node = some toNode ∧ sA.promotion_orc = some pieceName ∧
    sA.current_turn = s.current_turn := by
  unfold executeMove at hok
  split at hok
  · exact Except.noConfusion hok
  · rename_i x heq
    rw [hb] at heq
    injection heq with hx
    subst hx
    split at hok
    · exact Except.noConfusion hok
    · split at hok
      · exact Except.noConfusion hok
      · split at hok
        · exact Except.noConfusion hok
        · split at hok
          · exact Except.noConfusion hok
          · have hcan : canOrcPromote cfg pieceName toNode pc = true := by
              simp [canOrcPromote, horc, hzone]
            simp only [harrow, Bool.and_false, Bool.false_eq_true, if_false] at hok
            generalize hSC :
              captureAt { s with board := boardErase s.board fromNode } pc toNode = SC at hok
            have hframe :=
              captureAt_frame { s with board := boardErase s.board fromNode } pc toNode
            rw [hSC] at hframe
            have hpool2 : (getPromotablePieces (SC.1.captured (otherColor pc))).isEmpty = false := by
              rw [hframe.2.2.1]
              exact hpool
            simp only [captured_withBoardLast, hcan, hpool2, Bool.true_and, Bool.not_false,
              if_true] at hok
            simp only [Except.ok.injEq] at hok
            subst hok
            exact ⟨rfl, rfl, rfl, rfl, hframe.1⟩

/-- C8 — an accepted orc move to a resurrection-zone node of the mover's
color, while the opponent's captured pool holds a promotable (non-orc,
non-matron-mother) piece, puts the session into the PROMOTION sub-phase
with that node and orc recorded and does not flip the turn; a subsequently
accepted `promote_orc` removes the selected piece from that pool, replaces
the orc at the promotion node, clears the sub-phase, increments the
mover's turn counter and flips the turn. -/
theorem c8_orc_promotion_flow (cfg : Config) (st stA stB : GameState)
    (fromNode toNode playerColor pieceName selected : String)
    (hb : boardFind st.board fromNode = some pieceName)
    (horc : strContains pieceName "orc" = true)
    (harrow : strContains toNode "->" = false)
    (hzone : listElem toNode (cfg.reszones playerColor) = true)
    (hpool : (getPromotablePieces (st.captured (otherColor playerColor))).isEmpty = false)
    (hok : executeMove cfg st fromNode toNode playerColor = .ok stA)
    (hpok : promoteOrc stA playerColor selected = .ok stB) :
    stA.promotion_mode = true ∧
    stA.promotion_player = some playerColor ∧
    stA.promotion_node = some toNode ∧
    stA.promotion_orc = some pieceName ∧
    stA.current_turn = st.current_turn ∧
    stB.captured (otherColor playerColor) =
      listEraseFirst (stA.captured (otherColor playerColor)) selected ∧
    stB.board = boardInsert stA.board toNode selected ∧
    stB.promotion_mode = false ∧
    stB.promotion_player = none ∧
    stB.promotion_node = none ∧
    stB.promotion_orc = none ∧
    stB.turnNum playerColor = stA.turnNum playerColor + 1 ∧
    stB.current_turn = otherColor stA.current_turn := by
  obtain ⟨e1, e2, e3, e4, e5⟩ :=
    executeMove_promotion_entry cfg st stA fromNode toNode playerColor pieceName
      hb horc harrow hzone hpool hok
  obtain ⟨p1, p2, p3, p4, p5, p6, p7, p8⟩ :=
    promoteOrc_ok_effects stA stB playerColor selected hpok
  refine ⟨e1, e2, e3, e4, e5, p1, ?_, p3, p4, p5, p6, p7, p8⟩
  rw [p2, e3]
  rfl

/-- Configuration whose red resurrection zone is `R1N1` (Modelled from the
spec: resurrection zones come from `game-config.json`, absent from the
source tree). -/
def cfg8 : Config := { strands := [], reszonesRed := ["R1N1"], reszonesBlue := [], spiderDiceMinTurn := 0 }

/-- Red orc one step from the red resurrection zone, both matron mothers
far away, and a red priestess in blue's captured pool. -/
def st8 : GameState := { initialGameState with
  board := [("R1N8", "red_matron mother"), ("R2N0", "blue_matron mother"), ("R1N2", "red_orc")],
  current_turn := "red", game_started := true,
  captured_blue := ["red_priestess"] }

/-- State after red's orc steps onto the resurrection-zone node `R1N1`. -/
def stA8 : GameState := (executeMove cfg8 st8 "R1N2" "R1N1" "red").toOption.getD initialGameState

/-- State after red promotes the orc to the captured red priestess. -/
def stB8 : GameState := (promoteOrc stA8 "red" "red_priestess").toOption.getD initialGameState

/-- C8 witness: the concrete promotion flow on `st8`. -/
theorem c8_orc_promotion_flow_witness :
    stA8.promotion_mode = true ∧
    stA8.promotion_player = some "red" ∧
    stA8.promotion_node = some "R1N1" ∧
    stA8.promotion_orc = some "red_orc" ∧
    stA8.current_turn = st8.current_turn ∧
    stB8.captured (otherColor "red") =
      listEraseFirst (stA8.captured (otherColor "red")) "red_priestess" ∧
    stB8.board = boardInsert stA8.board "R1N1" "red_priestess" ∧
    stB8.promotion_mode = false ∧
    stB8.promotion_player = none ∧
    stB8.promotion_node = none ∧
    stB8.promotion_orc = none ∧
    stB8.turnNum "red" = stA8.turnNum "red" + 1 ∧
    stB8.current_turn = otherColor stA8.current_turn :=
  c8_orc_promotion_flow cfg8 st8 stA8 stB8 "R1N2" "R1N1" "red" "red_orc" "red_priestess"
    rfl rfl rfl rfl rfl rfl rfl
